import Mathlib

set_option maxRecDepth 100000

/-!
Shallow embedding of the Durachok card-game engine (the JavaScript `Game`
class together with its deck helpers `generateCardDeck`, `parseCard` and
`shuffleDeck`).  JavaScript strings are modelled by `String`, JavaScript
arrays by `List`, the key-value `tableTop` object by an insertion-ordered
association list, and a thrown exception by the `Except` error channel.
JavaScript dynamic typing matters in this code: `Array.prototype.reduce`
is applied with no initial value, so its result can be a boolean or a bare
element rather than an array, and property accesses on such values either
yield `undefined` or raise a `TypeError`.  Those behaviours are modelled
explicitly below, next to the line of source they come from.
-/

namespace Durachok

/-- The thirteen rank labels, from `CardLabels` in the source. -/
def CardLabels : List String :=
  ["2", "3", "4", "5", "6", "7", "8", "9", "10", "Jack", "Queen", "King", "Ace"]

/-- The four suit glyphs, from `CardSuits` in the source. -/
def CardSuits : List String := ["♡", "♢", "♣", "♤"]

/-- `generateCardDeck()`: label-major list of the 52 strings `label ++ " of " ++ suit`. -/
def generateCardDeck : List String :=
  (CardLabels.map (fun label => CardSuits.map (fun suit => label ++ " of " ++ suit))).flatten

/-- The separator `" of "` used by `parseCard`, as a character list. -/
def sepOf : List Char := [' ', 'o', 'f', ' ']

/-- Model of JavaScript `string.split(" of ")` on the character list of the string:
scan left to right, cutting at each non-overlapping occurrence of the separator
`' ' :: 'o' :: 'f' :: ' '` (that is, `sepOf`).  The result is always non-empty;
if the separator does not occur, the result is the singleton containing the
input. -/
def splitSep : List Char → List (List Char)
  | ' ' :: 'o' :: 'f' :: ' ' :: rest => [] :: splitSep rest
  | c :: rest =>
    match splitSep rest with
    | [] => [[c]]
    | h :: t => (c :: h) :: t
  | [] => [[]]

/-- `parseCard(card)` from the source: `card.split(" of ")`.  Note that the
source returns whatever the split yields; it never throws. -/
def parseCard (card : String) : List String :=
  (splitSep card.toList).map (fun cs => String.mk cs)

/-- Swap the entries at positions `i` and `j` (both in bounds, else no-op),
modelling the two JavaScript index assignments inside `shuffleDeck`. -/
def listSwap (l : List α) (i j : Nat) : List α :=
  match l[i]?, l[j]? with
  | some a, some b => (l.set i b).set j a
  | _, _ => l

/-- The loop of `shuffleDeck`: with `currentIndex = c + 1`, the source draws
`randomIndex = Math.floor(Math.random() * currentIndex)` (a value in
`[0, currentIndex)`), decrements `currentIndex`, and swaps those two positions.
The random source is modelled as a stream `rand` indexed by the loop counter;
`% (c + 1)` records that the drawn index is always below `currentIndex`. -/
def shuffleAux (rand : Nat → Nat) : List α → Nat → List α
  | deck, 0 => deck
  | deck, c + 1 => shuffleAux rand (listSwap deck c (rand (c + 1) % (c + 1))) c

/-- `shuffleDeck(deck)` from the source (Fisher-Yates, in place). -/
def shuffleDeck (rand : Nat → Nat) (deck : List α) : List α :=
  shuffleAux rand deck deck.length

lemma cons_set_perm : ∀ (xs : List α) (k : Nat) (x b : α), xs[k]? = some b →
    List.Perm (x :: xs) (b :: xs.set k x)
  | [], k, x, b, h => by simp at h
  | y :: ys, 0, x, b, h => by
      simp only [List.getElem?_cons_zero, Option.some.injEq] at h
      subst h
      simpa using List.Perm.swap y x ys
  | y :: ys, k + 1, x, b, h => by
      simp only [List.getElem?_cons_succ] at h
      have ih := cons_set_perm ys k x b h
      simp only [List.set_cons_succ]
      exact ((List.Perm.swap y x ys).trans (List.Perm.cons y ih)).trans
        (List.Perm.swap b y (ys.set k x))

lemma listSwap_perm : ∀ (l : List α) (i j : Nat), List.Perm (listSwap l i j) l := by
  intro l
  induction l with
  | nil => intro i j; unfold listSwap; simp
  | cons x xs ih =>
    intro i j
    unfold listSwap
    match i, j with
    | 0, 0 => simp
    | 0, k + 1 =>
      simp only [List.getElem?_cons_zero, List.getElem?_cons_succ]
      cases h : xs[k]? with
      | none => exact List.Perm.refl _
      | some b =>
        simp only [List.set_cons_zero, List.set_cons_succ]
        exact (cons_set_perm xs k x b h).symm
    | m + 1, 0 =>
      simp only [List.getElem?_cons_zero, List.getElem?_cons_succ]
      cases h : xs[m]? with
      | none => exact List.Perm.refl _
      | some a =>
        simp only [List.set_cons_succ, List.set_cons_zero]
        exact (cons_set_perm xs m x a h).symm
    | m + 1, k + 1 =>
      simp only [List.getElem?_cons_succ]
      have := ih m k
      unfold listSwap at this
      cases hm : xs[m]? with
      | none =>
        simp only [hm] at this ⊢
        cases hk : xs[k]? with
        | none => exact List.Perm.refl _
        | some b => exact List.Perm.refl _
      | some a =>
        cases hk : xs[k]? with
        | none =>
          simp only [hm, hk] at this ⊢
          exact List.Perm.refl _
        | some b =>
          simp only [hm, hk, List.set_cons_succ] at this ⊢
          exact List.Perm.cons x this

lemma shuffleAux_perm (rand : Nat → Nat) :
    ∀ (c : Nat) (deck : List α), List.Perm (shuffleAux rand deck c) deck := by
  intro c
  induction c with
  | zero => intro deck; exact List.Perm.refl _
  | succ c ih =>
    intro deck
    unfold shuffleAux
    exact (ih _).trans (listSwap_perm _ _ _)

lemma splitSep_no_sep :
    ∀ (cs : List Char), (¬ ∃ l r, cs = l ++ sepOf ++ r) → splitSep cs = [cs] := by
  intro cs
  induction cs using splitSep.induct with
  | case1 rest ih =>
    intro hno
    exact absurd ⟨[], rest, rfl⟩ hno
  | case2 c rest hne hmatch ih =>
    intro hno
    have hrest : splitSep rest = [rest] := by
      apply ih
      rintro ⟨l, r, hr⟩
      exact hno ⟨c :: l, r, by simp [hr]⟩
    rw [hrest] at hmatch
    simp at hmatch
  | case3 c rest hne h t hmatch ih =>
    intro hno
    have hrest : splitSep rest = [rest] := by
      apply ih
      rintro ⟨l, r, hr⟩
      exact hno ⟨c :: l, r, by simp [hr]⟩
    rw [hrest] at hmatch
    injection hmatch with h1 h2
    subst h1
    subst h2
    rw [splitSep.eq_def]
    split
    · rename_i rest1 heq
      injection heq with hc hr
      exact (hne rest1 hc hr).elim
    · rename_i cc rr hne2 heq
      injection heq with hc hr
      subst hc
      subst hr
      simp only [hrest]
    · rename_i heq
      exact (List.cons_ne_nil c rest heq).elim
  | case4 =>
    intro _
    rfl

/-- C8 (amended): `parseCard` never fails; on an input with no `" of "`
separator it returns the one-element list holding the whole input. -/
theorem parseCard_no_sep_singleton (s : String)
    (h : ¬ ∃ l r, s.toList = l ++ sepOf ++ r) : parseCard s = [s] := by
  unfold parseCard
  rw [splitSep_no_sep s.toList h]
  have hs : String.mk s.toList = s := by cases s; rfl
  simp [hs]

/-- C8 counterexample: on the separator-free input `"foo"` the source
`parseCard` returns the one-element array `["foo"]` - it does not fail with
`InvalidCardFormat` (it has no failure path at all), nor does it produce a
(rank, suit) pair. -/
theorem parseCard_no_sep_counterexample :
    parseCard "foo" = ["foo"] ∧ (parseCard "foo").length ≠ 2 := by
  constructor
  · rfl
  · decide

/-- Witness for `parseCard_no_sep_singleton` at the concrete input `"foo"`. -/
theorem parseCard_no_sep_witness :
    (¬ ∃ l r, "foo".toList = l ++ sepOf ++ r) ∧ parseCard "foo" = ["foo"] := by
  have hno : ¬ ∃ l r, "foo".toList = l ++ sepOf ++ r := by
    rintro ⟨l, r, hr⟩
    have hlen := congrArg List.length hr
    have h3 : ("foo".toList).length = 3 := by decide
    simp only [h3, List.length_append, sepOf, List.length_cons, List.length_nil] at hlen
    omega
  exact ⟨hno, parseCard_no_sep_singleton "foo" hno⟩

/-- C9: every card of the 52-card universe built by `generateCardDeck` parses
back to exactly its rank label and suit glyph. -/
theorem generated_card_round_trip :
    ∀ label ∈ CardLabels, ∀ suit ∈ CardSuits,
      (label ++ " of " ++ suit) ∈ generateCardDeck ∧
      parseCard (label ++ " of " ++ suit) = [label, suit] := by
  have hall : (CardLabels.all (fun label => CardSuits.all (fun suit =>
      generateCardDeck.contains (label ++ " of " ++ suit) &&
      (parseCard (label ++ " of " ++ suit) == [label, suit])))) = true := by decide
  intro label hl suit hs
  have h1 := List.all_eq_true.mp hall label hl
  have h2 := List.all_eq_true.mp h1 suit hs
  rw [Bool.and_eq_true] at h2
  exact ⟨by simpa using h2.1, eq_of_beq h2.2⟩

/-- Witness for `generated_card_round_trip` at the concrete card `"2 of ♡"`. -/
theorem generated_card_round_trip_witness :
    "2" ∈ CardLabels ∧ "♡" ∈ CardSuits ∧ parseCard "2 of ♡" = ["2", "♡"] := by
  refine ⟨by decide, by decide, ?_⟩
  exact (generated_card_round_trip "2" (by decide) "♡" (by decide)).2

/-- C10: `shuffleDeck` is a permutation - for every random stream and every
input list, the output has the same multiset of elements (hence the same
length) as the input. -/
theorem shuffleDeck_is_permutation {α : Type} (rand : Nat → Nat) (deck : List α) :
    List.Perm (shuffleDeck rand deck) deck ∧ (shuffleDeck rand deck).length = deck.length :=
  ⟨shuffleAux_perm rand deck.length deck,
   (shuffleAux_perm rand deck.length deck).length_eq⟩

/-- Error outcomes of the engine operations.  Each constructor corresponds to
one `throw new Error(message)` site of the source (the message is given in the
comment), except `typeError`, which models a JavaScript runtime `TypeError`
raised by the source itself (e.g. `reduce` of an empty array with no initial
value, reading `.length` of `null`, or calling `.split` on `null`). -/
inductive GameErr
  | invalidPlayerCount
      -- constructor guards: count not a positive integer / greater than eight
  | tableFull            -- addCardToTableTop: table already holds 6 cards
  | unknownPlayer        -- addCardToTableTop: the player id is not known
  | insufficientDefenderCards
      -- addCardToTableTop: hand too small to cover the outstanding attacks
  | invalidCard          -- addCardToTableTop: unknown rank label or suit glyph
  | cardNotHeld          -- addCardToTableTop: card absent from the hand
  | rankNotOnTable       -- addCardToTableTop: rank not present on the table top
  | noSuchAttack         -- coverAttack (spec-modelled): no such uncovered attack
  | illegalCover         -- coverAttack (spec-modelled): covering card does not beat
  | typeError            -- a JavaScript runtime TypeError, not a thrown game error
deriving DecidableEq

/-- The possible values of a `player.deck` field.  It starts as an array of
card strings, but line 167 of the source (`player.deck = player.deck.reduce(...)`)
can replace it with a bare string (one-element array) or a boolean (two or more
elements), because `reduce` is used where `filter` was intended. -/
inductive JSDeck
  | arr (cards : List String)
  | str (s : String)
  | bool (b : Bool)
deriving DecidableEq

/-- A player entry as built by the constructor:
`{ deck: [], startsFirst: false, defending: false }`. -/
structure JSPlayer where
  deck : JSDeck
  startsFirst : Bool
  defending : Bool
deriving DecidableEq

/-- The `Game` object.  `players` is the id-keyed object in insertion order
(ids are modelled by list positions); `tableTop` is the key-value object in
insertion order, mapping an attacking card to its covering card or `null`;
`deck` is the undealt stock; `history` is the (never written) history object. -/
structure JSGame where
  history : List String
  players : List JSPlayer
  tableTop : List (String × Option String)
  deck : List String
  trumpSuite : String
deriving DecidableEq

/-- Line 139: `Object.values(this.tableTop).reduce((item) => item !== null).length`.
`reduce` with no initial value throws a `TypeError` on an empty array; on a
one-element array it returns that element unreduced (`.length` of `null` then
throws, `.length` of a card string is its length); on two or more elements the
callback - which ignores its second argument - turns the accumulator into a
boolean, whose `.length` is `undefined` (modelled as `none`). -/
def coveredCardsLen : List (Option String) → Except GameErr (Option Nat)
  | [] => .error .typeError
  | [none] => .error .typeError
  | [some s] => .ok (some s.length)
  | _ :: _ :: _ => .ok none

/-- `player.deck.length`: a number for arrays and strings, `undefined` for a
boolean (modelled as `none`). -/
def jsDeckLen : JSDeck → Option Nat
  | .arr cs => some cs.length
  | .str s => some s.length
  | .bool _ => none

/-- Line 141: `Object.keys(this.tableTop).length - coveredCards + 1 > player.deck.length`.
If either side involves `undefined`, the arithmetic yields `NaN` and the
comparison is false. -/
def insufficientGuard (tableLen : Nat) (covered : Option Nat) (deckLen : Option Nat) : Bool :=
  match covered, deckLen with
  | some l, some d => decide ((tableLen : Int) - (l : Int) + 1 > (d : Int))
  | _, _ => false

/-- Substring test, modelling JavaScript `String.prototype.includes`. -/
def hasSub (sub : List Char) : List Char → Bool
  | [] => sub.isEmpty
  | c :: rest => sub.isPrefixOf (c :: rest) || hasSub sub rest

/-- Line 153: `player.deck.includes(card)`.  On an array this is element
membership; on a string it is the substring test; on a boolean there is no
`includes` method, so a `TypeError` is raised. -/
def jsDeckIncludes : JSDeck → String → Except GameErr Bool
  | .arr cs, card => .ok (cs.contains card)
  | .str s, card => .ok (hasSub card.toList s.toList)
  | .bool _, _ => .error .typeError

/-- Line 167: `player.deck.reduce((item) => item !== card)` on an array.
With no initial value: empty array throws; a one-element array returns its
element (a card string); two elements return the boolean `deck[0] !== card`;
three or more always end in `true` (a boolean compared against a string). -/
def reduceNeqCard (card : String) : List String → Except GameErr JSDeck
  | [] => .error .typeError
  | [x] => .ok (.str x)
  | [x, _] => .ok (.bool (x != card))
  | _ :: _ :: _ :: _ => .ok (.bool true)

/-- Line 167 on the current `player.deck` value: strings and booleans have no
`reduce` method. -/
def jsDeckReduceNeq : JSDeck → String → Except GameErr JSDeck
  | .arr cs, card => reduceNeqCard card cs
  | .str _, _ => .error .typeError
  | .bool _, _ => .error .typeError

/-- `getTableTopDeck()`: `Object.entries(this.tableTop).flat()` - keys and
values interleaved in insertion order; values may be `null`. -/
def getTableTopDeck (g : JSGame) : List (Option String) :=
  (g.tableTop.map (fun kv => [some kv.1, kv.2])).flatten

/-- Line 159: `.map(item => parseCard(item)[0])` over the flattened table top.
`parseCard(null)` calls `null.split`, a `TypeError`; otherwise the first
component of each split is collected. -/
def tableTopRanks : List (Option String) → Except GameErr (List String)
  | [] => .ok []
  | none :: _ => .error .typeError
  | some s :: rest =>
    match tableTopRanks rest with
    | .error e => .error e
    | .ok rs => .ok ((parseCard s).headD "" :: rs)

/-- Key assignment `this.tableTop[card] = null` on the insertion-ordered
object: an existing key is updated in place, a new key is appended. -/
def jsObjSet (t : List (String × Option String)) (k : String) (v : Option String) :
    List (String × Option String) :=
  if t.any (fun kv => kv.1 == k) then
    t.map (fun kv => if kv.1 == k then (kv.1, v) else kv)
  else t ++ [(k, v)]

/-- `Game.addCardToTableTop(from, card)`, lines 125-168 of the source,
translated check by check in source order.  The error channel carries the
state at the moment the exception escapes: every `throw` happens before any
mutation, but the line-167 `reduce` can itself raise a `TypeError` after the
table top was already updated on line 166, in which case the partially
mutated state is returned with the error. -/
def addCardToTableTop (g : JSGame) (fromIdx : Nat) (card : String) :
    Except (GameErr × JSGame) JSGame :=
  if ¬ (g.tableTop.length < 6) then .error (.tableFull, g)
  else
    match g.players[fromIdx]? with
    | none => .error (.unknownPlayer, g)
    | some player =>
      match coveredCardsLen (g.tableTop.map Prod.snd) with
      | .error e => .error (e, g)
      | .ok covered =>
        if insufficientGuard g.tableTop.length covered (jsDeckLen player.deck) then
          .error (.insufficientDefenderCards, g)
        else
          if ¬ (CardLabels.contains ((parseCard card).headD "") ∧
                CardSuits.contains ((parseCard card)[1]?.getD "")) then
            .error (.invalidCard, g)
          else
            match jsDeckIncludes player.deck card with
            | .error e => .error (e, g)
            | .ok has =>
              if ¬ (has = true) then .error (.cardNotHeld, g)
              else
                match tableTopRanks (getTableTopDeck g) with
                | .error e => .error (e, g)
                | .ok ranks =>
                  if ¬ (ranks.contains ((parseCard card).headD "") = true) then
                    .error (.rankNotOnTable, g)
                  else
                    match jsDeckReduceNeq player.deck card with
                    | .error e =>
                      .error (e, { g with tableTop := jsObjSet g.tableTop card none })
                    | .ok d =>
                      .ok { g with
                            tableTop := jsObjSet g.tableTop card none
                            players := g.players.set fromIdx { player with deck := d } }

/-- `Game.DECK_SIZE`. -/
def DECK_SIZE : Nat := 6

/-- One pass of the dealing loop body:
`Object.keys(this.players).forEach((id) => this.players[id].deck.push(this.deck.shift()))`.
(The deck cannot run out here, since at most 8 players take 6 cards each from
52; the empty-deck branch keeps hands unchanged.) -/
def dealRound : List (List String) → List String → List (List String) × List String
  | [], deck => ([], deck)
  | h :: hs, [] => (h :: hs, [])
  | h :: hs, c :: cs =>
    match dealRound hs cs with
    | (hs2, deck2) => ((h ++ [c]) :: hs2, deck2)

/-- The outer dealing loop, `for (let index = 0; index < Game.DECK_SIZE; index++)`. -/
def dealRounds : Nat → List (List String) → List String → List (List String) × List String
  | 0, hands, deck => (hands, deck)
  | n + 1, hands, deck =>
    match dealRound hands deck with
    | (hands2, deck2) => dealRounds n hands2 deck2

/-- `Number.isInteger(players)`: the model restricts the `players` argument to
`Int`, on which the JavaScript test is identically true.  (The claims under
study only concern integer player counts.) -/
def numberIsInteger (_ : Int) : Bool := true

/-- The `Game` constructor, lines 52-101 of the source: build and shuffle the
deck, validate the player count (`!Number.isInteger(players) && players < 0`
first, then `players > 8`), create one empty player entry per index below
`players`, deal `DECK_SIZE` rounds, read the trump suite from the first
remaining card, and cycle that card to the back of the stock.  The
`typeError` branch models `parseCard(undefined)` on an exhausted stock and is
unreachable for counts at most 8. -/
def mkGame (rand : Nat → Nat) (players : Int) : Except GameErr JSGame :=
  let deck0 := shuffleDeck rand generateCardDeck
  if numberIsInteger players = false ∧ players < 0 then .error .invalidPlayerCount
  else if players > 8 then .error .invalidPlayerCount
  else
    let hands0 := List.replicate players.toNat ([] : List String)
    match dealRounds DECK_SIZE hands0 deck0 with
    | (hands, deck1) =>
      match deck1 with
      | [] => .error .typeError
      | c :: cs =>
        .ok {
          history := []
          players := hands.map (fun h =>
            { deck := .arr h, startsFirst := false, defending := false })
          tableTop := []
          deck := cs ++ [c]
          trumpSuite := (parseCard c)[1]?.getD "" }

/-- The card strings a `deck` field actually holds: a corrupted hand (a bare
string or boolean left behind by line 167) holds no card array any more. -/
def deckCards : JSDeck → List String
  | .arr cs => cs
  | .str _ => []
  | .bool _ => []

/-- All cards sitting on the table top: every key and every non-null value. -/
def tableTopCards (t : List (String × Option String)) : List String :=
  (t.map (fun kv => kv.1 :: kv.2.toList)).flatten

/-- Every card present somewhere in the game state: the undealt stock, the
players' hands and the table top.  (The source has no discard pile:
`voidTableTop` is an empty stub.) -/
def stateCards (g : JSGame) : List String :=
  g.deck ++ (g.players.map (fun p => deckCards p.deck)).flatten ++ tableTopCards g.tableTop

/-- The player list of a successful construction, `none` on failure. -/
def resultPlayers : Except GameErr JSGame → Option (List JSPlayer)
  | .ok g => some g.players
  | .error _ => none

/-- A fixed random stream (every draw picks index 0). -/
def rand0 : Nat → Nat := fun _ => 0

/-- A freshly constructed two-player game under the `rand0` stream.  (The
fallback branch is unreachable: `mkGame rand0 2` succeeds.) -/
def freshGame : JSGame :=
  match mkGame rand0 2 with
  | .ok g => g
  | .error _ => { history := [], players := [], tableTop := [], deck := [], trumpSuite := "" }

/-- A mid-round state in which every validation of `addCardToTableTop`
passes for player 0 playing `"2 of ♡"`: player 0 (the attacker) holds three
cards, player 1 (the defender) holds two, one covered attack sits on the
table, and the stock holds the remaining 45 of the 52 cards. -/
def S1 : JSGame :=
  { history := []
    players := [
      { deck := .arr ["2 of ♡", "3 of ♡", "2 of ♢"], startsFirst := false, defending := false },
      { deck := .arr ["9 of ♡", "9 of ♢"], startsFirst := false, defending := true }]
    tableTop := [("2 of ♤", some "2 of ♣")]
    deck := generateCardDeck.filter (fun c =>
      !(["2 of ♡", "3 of ♡", "2 of ♢", "9 of ♡", "9 of ♢", "2 of ♤", "2 of ♣"].contains c))
    trumpSuite := "♣" }

/-- The state the source actually produces from `S1` on a successful
`addCardToTableTop(player 0, "2 of ♡")`: the card is appended to the table
top, but the whole hand of player 0 collapses to the boolean `true`
(line 167 uses `reduce` where `filter` was intended), so the cards
`"3 of ♡"` and `"2 of ♢"` vanish from the game, and no history record is
appended. -/
def S1after : JSGame :=
  { history := []
    players := [
      { deck := .bool true, startsFirst := false, defending := false },
      { deck := .arr ["9 of ♡", "9 of ♢"], startsFirst := false, defending := true }]
    tableTop := [("2 of ♤", some "2 of ♣"), ("2 of ♡", none)]
    deck := generateCardDeck.filter (fun c =>
      !(["2 of ♡", "3 of ♡", "2 of ♢", "9 of ♡", "9 of ♢", "2 of ♤", "2 of ♣"].contains c))
    trumpSuite := "♣" }

/-- C1: card conservation fails.  On a freshly constructed game every attack
attempt - whatever the card - throws a `TypeError` (line 139 reduces the
empty `Object.values(tableTop)` with no initial value), so no attack can ever
succeed from a reachable state; and on the state `S1`, where all validations
do pass, the successful `addCardToTableTop` breaks the 52-card partition:
`S1` holds each of the 52 cards exactly once, while the resulting state has
lost two of them (the attacker's hand was overwritten by a boolean). -/
theorem conservation_violated_by_addCard :
    (∀ card, addCardToTableTop freshGame 0 card = .error (.typeError, freshGame)) ∧
    List.Perm (stateCards S1) generateCardDeck ∧
    addCardToTableTop S1 0 "2 of ♡" = .ok S1after ∧
    ¬ List.Perm (stateCards S1after) generateCardDeck := by
  refine ⟨fun card => rfl, List.isPerm_iff.mp (by decide), rfl, fun h => ?_⟩
  rw [← List.isPerm_iff] at h
  exact absurd h (by decide)

/-- A state in which every validation of `addCardToTableTop` passes for
player 0 playing `"6 of ♡"` out of a three-card hand. -/
def T2 : JSGame :=
  { history := []
    players := [
      { deck := .arr ["6 of ♡", "6 of ♢", "10 of ♣"], startsFirst := false, defending := false }]
    tableTop := [("6 of ♤", some "6 of ♣")]
    deck := []
    trumpSuite := "♣" }

/-- What the source produces from `T2`: table top extended, hand replaced by
the boolean `true`, history untouched. -/
def T2after : JSGame :=
  { history := []
    players := [
      { deck := .bool true, startsFirst := false, defending := false }]
    tableTop := [("6 of ♤", some "6 of ♣"), ("6 of ♡", none)]
    deck := []
    trumpSuite := "♣" }

/-- C2: the success postcondition of `addCardToTableTop` fails.  From `T2`
the operation succeeds and does insert the card as an unmatched (`null`)
entry, but instead of removing exactly the played card it replaces the whole
hand by the boolean `true` (line 167, `reduce` instead of `filter`), and it
appends nothing to the history log (the history write is only a TODO comment
in the source; `addHistoryNode` is an empty stub that is never called). -/
theorem addCard_success_destroys_hand :
    addCardToTableTop T2 0 "6 of ♡" = .ok T2after ∧
    (T2after.players.map JSPlayer.deck ≠ [.arr ["6 of ♢", "10 of ♣"]]) ∧
    T2after.players.map JSPlayer.deck = [.bool true] ∧
    T2after.history = T2.history := by
  exact ⟨rfl, by decide, rfl, rfl⟩

/-- The claim's own scenario: one uncovered attack on the table, the
defender (player 1) holds two cards, and the attacker (player 0) attempts a
second attack - which the claim says must succeed, since
uncovered + 1 = 2 is not greater than the defender's hand size 2. -/
def T3 : JSGame :=
  { history := []
    players := [
      { deck := .arr ["6 of ♡", "7 of ♣"], startsFirst := false, defending := false },
      { deck := .arr ["9 of ♡", "9 of ♢"], startsFirst := false, defending := true }]
    tableTop := [("6 of ♤", none)]
    deck := []
    trumpSuite := "♣" }

/-- C3: the defender-capacity check does not behave as claimed.  In the
claim's own scenario (one uncovered attack, defender holding two cards, a
second attack arriving) the source throws a `TypeError` instead of
succeeding: line 139 applies `reduce` with no initial value to
`Object.values(tableTop) = [null]`, which returns `null` unreduced, and then
reads `null.length`.  (With two or more table entries the reduce yields a
boolean whose `.length` is `undefined`, so the capacity comparison is `NaN`
and never fires; moreover the hand compared on line 141 is the attacking
player's, not the defender's.) -/
theorem defender_capacity_check_crashes :
    addCardToTableTop T3 0 "6 of ♡" = .error (.typeError, T3) := by
  rfl

/-- An empty-table state: player 0 holds one card and makes the first attack
of the round. -/
def T4a : JSGame :=
  { history := []
    players := [
      { deck := .arr ["5 of ♢"], startsFirst := false, defending := false }]
    tableTop := []
    deck := []
    trumpSuite := "♣" }

/-- A table with one covered and one uncovered attack; player 0 plays a card
whose rank (5) matches nothing on the table. -/
def T4b : JSGame :=
  { history := []
    players := [
      { deck := .arr ["5 of ♢", "6 of ♣"], startsFirst := false, defending := false }]
    tableTop := [("2 of ♤", some "2 of ♣"), ("3 of ♤", none)]
    deck := []
    trumpSuite := "♣" }

/-- A table with a single covered attack; player 0 plays a card whose rank
matches nothing on the table. -/
def T4c : JSGame :=
  { history := []
    players := [
      { deck := .arr ["5 of ♢"], startsFirst := false, defending := false }]
    tableTop := [("2 of ♤", some "2 of ♣")]
    deck := []
    trumpSuite := "♣" }

/-- C4: the rank-matching rule does not behave as claimed.  The first attack
onto an empty table is not exempt: it never even reaches the rank check,
because line 139 throws a `TypeError` (reduce of an empty array), and the
rank check itself (line 159) has no empty-table exemption - an empty table
contributes no ranks, so any first attack would be rejected.  With an
uncovered attack on the table the rank check crashes too:
`Object.entries(...).flat()` contains `null` and `parseCard(null)` throws.
Only when every attack is covered does the source report the claimed
rank-mismatch error, as `T4c` shows. -/
theorem rank_check_crashes_and_blocks_first_attack :
    addCardToTableTop T4a 0 "5 of ♢" = .error (.typeError, T4a) ∧
    addCardToTableTop T4b 0 "5 of ♢" = .error (.typeError, T4b) ∧
    addCardToTableTop T4c 0 "5 of ♢" = .error (.rankNotOnTable, T4c) := by
  exact ⟨rfl, rfl, rfl⟩

/-- C6: the player-count guard accepts zero and negative counts.  The
condition on line 70 is `!Number.isInteger(players) && players < 0` - for an
integer argument the first conjunct is false, so the conjunction never
fires, and only the `players > 8` branch rejects anything.  A count of `0`
(or `-3`) therefore constructs a playerless game instead of failing with
`InvalidPlayerCount`; counts `1..8` do construct that many players, and
counts above eight are rejected. -/
theorem constructor_accepts_zero_players :
    resultPlayers (mkGame rand0 0) = some [] ∧
    resultPlayers (mkGame rand0 (-3)) = some [] ∧
    mkGame rand0 9 = .error .invalidPlayerCount ∧
    (resultPlayers (mkGame rand0 5)).map List.length = some 5 := by
  exact ⟨rfl, rfl, rfl, rfl⟩

lemma reduceNeqCard_ok (card : String) :
    ∀ cs : List String, cs ≠ [] → ∃ d, reduceNeqCard card cs = .ok d
  | [], hne => absurd rfl hne
  | [x], _ => ⟨.str x, rfl⟩
  | [x, _y], _ => ⟨.bool (x != card), rfl⟩
  | _x :: _y :: _z :: _t, _ => ⟨.bool true, rfl⟩

/-- C7: validate-then-commit.  On any game state whose hands are still card
arrays (every state the constructor can reach - line 167 never successfully
runs from such states, see C1), a failing `addCardToTableTop` leaves the
state exactly as it was: every `throw` in the source happens before the
mutations on lines 166-167.  (The hand-shape hypothesis matters: a hand
already corrupted to a bare string could make line 167 itself throw after
line 166 mutated the table top.) -/
theorem addCard_failure_preserves_state (g : JSGame) (fromIdx : Nat) (card : String)
    (wf : ∀ p ∈ g.players, ∃ cs, p.deck = JSDeck.arr cs)
    (e : GameErr) (g2 : JSGame)
    (h : addCardToTableTop g fromIdx card = .error (e, g2)) : g2 = g := by
  unfold addCardToTableTop at h
  by_cases h1 : g.tableTop.length < 6
  case neg =>
    rw [if_pos h1] at h
    simp only [Except.error.injEq, Prod.mk.injEq] at h
    exact h.2.symm
  case pos =>
    rw [if_neg (not_not_intro h1)] at h
    cases hp : g.players[fromIdx]? with
    | none =>
      rw [hp] at h
      simp only [Except.error.injEq, Prod.mk.injEq] at h
      exact h.2.symm
    | some player =>
      rw [hp] at h
      simp only [] at h
      cases hcov : coveredCardsLen (g.tableTop.map Prod.snd) with
      | error e1 =>
        rw [hcov] at h
        simp only [Except.error.injEq, Prod.mk.injEq] at h
        exact h.2.symm
      | ok covered =>
        rw [hcov] at h
        simp only [] at h
        by_cases hguard :
            insufficientGuard g.tableTop.length covered (jsDeckLen player.deck) = true
        case pos =>
          rw [if_pos hguard] at h
          simp only [Except.error.injEq, Prod.mk.injEq] at h
          exact h.2.symm
        case neg =>
          rw [if_neg hguard] at h
          by_cases hvalid : CardLabels.contains ((parseCard card).headD "") ∧
              CardSuits.contains ((parseCard card)[1]?.getD "")
          case neg =>
            rw [if_pos hvalid] at h
            simp only [Except.error.injEq, Prod.mk.injEq] at h
            exact h.2.symm
          case pos =>
            rw [if_neg (not_not_intro hvalid)] at h
            obtain ⟨cs, hcs⟩ := wf player (List.mem_iff_getElem?.mpr ⟨fromIdx, hp⟩)
            rw [hcs] at h
            simp only [jsDeckIncludes] at h
            by_cases hhas : cs.contains card = true
            case neg =>
              rw [if_pos hhas] at h
              simp only [Except.error.injEq, Prod.mk.injEq] at h
              exact h.2.symm
            case pos =>
              rw [if_neg (not_not_intro hhas)] at h
              cases hranks : tableTopRanks (getTableTopDeck g) with
              | error e3 =>
                rw [hranks] at h
                simp only [Except.error.injEq, Prod.mk.injEq] at h
                exact h.2.symm
              | ok ranks =>
                rw [hranks] at h
                simp only [] at h
                by_cases hrank : ranks.contains ((parseCard card).headD "") = true
                case neg =>
                  rw [if_pos hrank] at h
                  simp only [Except.error.injEq, Prod.mk.injEq] at h
                  exact h.2.symm
                case pos =>
                  rw [if_neg (not_not_intro hrank)] at h
                  simp only [jsDeckReduceNeq] at h
                  obtain ⟨d, hd⟩ := reduceNeqCard_ok card cs (by
                    intro hnil
                    rw [hnil] at hhas
                    simp at hhas)
                  rw [hd] at h
                  exact Except.noConfusion h

/-- A state whose table top already holds six attacks: the next attack fails
with the table-full error and, per `addCard_failure_preserves_state`, leaves
the state untouched. -/
def G7 : JSGame :=
  { history := []
    players := [
      { deck := .arr ["2 of ♡"], startsFirst := false, defending := false }]
    tableTop := [("3 of ♡", none), ("3 of ♢", none), ("3 of ♣", none),
                 ("3 of ♤", none), ("4 of ♡", none), ("4 of ♢", none)]
    deck := []
    trumpSuite := "♣" }

/-- Witness for `addCard_failure_preserves_state` at the concrete state `G7`. -/
theorem addCard_failure_preserves_state_witness :
    addCardToTableTop G7 0 "2 of ♡" = .error (.tableFull, G7) ∧ G7 = G7 := by
  refine ⟨rfl, ?_⟩
  exact addCard_failure_preserves_state G7 0 "2 of ♡"
    (by intro p hp; fin_cases hp; exact ⟨_, rfl⟩) .tableFull G7 rfl

/-- Rank strength: position of the label in `CardLabels` (2 lowest, Ace highest). -/
def rankValue (r : String) : Nat := CardLabels.indexOf r

/-- A card as a (rank, suit) pair, the data model used by the spec for the
cover operation. -/
structure SpecCard where
  rank : String
  suit : String
deriving DecidableEq

/-- Modelled from the spec: the body of `coverCardOnTableTop` is empty in the
source, so the beating relation comes from the spec - the covering card beats
the attacked card iff it has the same suit and strictly higher rank, or it is
a trump while the attacked card is not.  (Trump against trump falls under the
same-suit clause, so it still demands a strictly higher rank.) -/
def beats (trump : String) (attacked covering : SpecCard) : Bool :=
  (covering.suit == attacked.suit &&
    decide (rankValue attacked.rank < rankValue covering.rank)) ||
  (covering.suit == trump && attacked.suit != trump)

/-- Modelled from the spec: the body of `coverCardOnTableTop` is empty in the
source, so the whole cover transition is modelled from the spec contract for
`coverAttack`: fail `CardNotHeld` if the defender does not hold the covering
card, `NoSuchAttack` unless the attacked card is a key currently mapped to
null, `IllegalCover` unless the covering card beats the attacked card; on
success remove the covering card from the defender's hand and set it as the
value of the attacked key. -/
def coverAttack (trump : String) (hand : List SpecCard)
    (table : List (SpecCard × Option SpecCard)) (attacked covering : SpecCard) :
    Except GameErr (List SpecCard × List (SpecCard × Option SpecCard)) :=
  if ¬ (hand.contains covering = true) then .error .cardNotHeld
  else
    match table.find? (fun kv => kv.1 == attacked) with
    | some (_, none) =>
      if beats trump attacked covering then
        .ok (hand.erase covering,
             table.map (fun kv => if kv.1 == attacked then (kv.1, some covering) else kv))
      else .error .illegalCover
    | _ => .error .noSuchAttack

lemma beats_iff (trump : String) (attacked covering : SpecCard) :
    beats trump attacked covering = true ↔
      ((covering.suit = attacked.suit ∧ rankValue attacked.rank < rankValue covering.rank) ∨
       (covering.suit = trump ∧ attacked.suit ≠ trump)) := by
  simp [beats, Bool.or_eq_true, Bool.and_eq_true, decide_eq_true_eq, beq_iff_eq,
    bne_iff_ne]

/-- C5 (spec-modelled): for an uncovered attack on the table and a covering
card held by the defender, the cover succeeds exactly when the covering card
has the attacked card's suit and a strictly higher rank, or is a trump
covering a non-trump; in every other case it fails with `IllegalCover`. -/
theorem coverAttack_legality (trump : String) (hand : List SpecCard)
    (table : List (SpecCard × Option SpecCard)) (attacked covering : SpecCard)
    (hheld : covering ∈ hand)
    (hatk : table.find? (fun kv => kv.1 == attacked) = some (attacked, none)) :
    ((∃ res, coverAttack trump hand table attacked covering = .ok res) ↔
      ((covering.suit = attacked.suit ∧ rankValue attacked.rank < rankValue covering.rank) ∨
       (covering.suit = trump ∧ attacked.suit ≠ trump))) ∧
    ((coverAttack trump hand table attacked covering = .error .illegalCover) ↔
      ¬ ((covering.suit = attacked.suit ∧ rankValue attacked.rank < rankValue covering.rank) ∨
         (covering.suit = trump ∧ attacked.suit ≠ trump))) := by
  have hc : hand.contains covering = true := by simpa using hheld
  unfold coverAttack
  rw [if_neg (not_not_intro hc), hatk]
  simp only []
  by_cases hb : beats trump attacked covering = true
  · rw [if_pos hb]
    constructor
    · exact ⟨fun _ => (beats_iff trump attacked covering).mp hb, fun _ => ⟨_, rfl⟩⟩
    · constructor
      · intro he
        exact Except.noConfusion he
      · intro hn
        exact absurd ((beats_iff trump attacked covering).mp hb) hn
  · rw [if_neg hb]
    constructor
    · constructor
      · rintro ⟨res, hres⟩
        exact Except.noConfusion hres
      · intro hp
        exact absurd ((beats_iff trump attacked covering).mpr hp) hb
    · exact ⟨fun _ hp => hb ((beats_iff trump attacked covering).mpr hp),
             fun _ => rfl⟩

/-- Witness for `coverAttack_legality`: with trump ♣, the attack `7 of ♡` and
the covering card `9 of ♡` held by the defender, the cover succeeds. -/
theorem coverAttack_legality_witness :
    (⟨"9", "♡"⟩ : SpecCard) ∈ [(⟨"9", "♡"⟩ : SpecCard)] ∧
    (∃ res, coverAttack "♣" [⟨"9", "♡"⟩] [(⟨"7", "♡"⟩, none)]
      ⟨"7", "♡"⟩ ⟨"9", "♡"⟩ = .ok res) := by
  refine ⟨by decide, ?_⟩
  have h := coverAttack_legality "♣" [⟨"9", "♡"⟩] [(⟨"7", "♡"⟩, none)]
    ⟨"7", "♡"⟩ ⟨"9", "♡"⟩ (by decide) (by decide)
  exact h.1.mpr (Or.inl ⟨rfl, by decide⟩)

end Durachok
